import Mathlib

/-!
Shallow embedding of the return-calculation, date-resolution and
provider-routing logic of the PerformanceDashboardTicker spreadsheet app.

Modelling conventions, used throughout:
* JavaScript numbers are modelled as exact rationals; the distinguished
  non-finite values are carried by an explicit JSVal constructor where a
  code path can produce them.
* Date objects are modelled as their millisecond timestamps (Int).  The
  script's local timezone is a fixed offset of lo hours from UTC, passed
  explicitly; getDay, getHours and getMinutes are computed from the
  timestamp exactly as the ECMAScript specification prescribes for a
  fixed-offset zone (floor division by the period, nonnegative modulus).
* Number.prototype.toFixed(2) is modelled under exact-rational semantics:
  nearest two-decimal value, ties away from zero.
* Number(string) and parseFloat(string) are modelled for finite plain
  decimal literals (optional sign, digits, optional fraction); every other
  string is non-numeric (NaN), which covers the sentinel strings the
  dashboard actually passes around.
-/

namespace PerfDash

/-! ### Character-level helpers for the JavaScript string coercions -/

/-- Strip leading and trailing whitespace from a character list (the
whitespace trimming JavaScript performs before numeric conversion). -/
def trimChars (cs : List Char) : List Char :=
  ((cs.dropWhile (fun c => c.isWhitespace)).reverse.dropWhile
    (fun c => c.isWhitespace)).reverse

/-- Lower-case a character list (String.prototype.toLowerCase for the
ASCII source names used by the dashboard). -/
def lowerChars (cs : List Char) : List Char :=
  cs.map Char.toLower

/-- Numeric value of a digit run, most significant first. -/
def natOfDigits (cs : List Char) : Nat :=
  cs.foldl (fun acc c => acc * 10 + (c.toNat - 48)) 0

/-- Split a character list into its leading digit run and the remainder. -/
def spanDigits (cs : List Char) : List Char × List Char :=
  (cs.takeWhile Char.isDigit, cs.dropWhile Char.isDigit)

/-- Exact value of a decimal literal with integer part and fraction part. -/
def decValue (intPart fracPart : List Char) : ℚ :=
  (natOfDigits intPart : ℚ) + (natOfDigits fracPart : ℚ) / (10 : ℚ) ^ fracPart.length

/-- Parse an optional sign, returning the sign factor and the rest. -/
def splitSign (cs : List Char) : ℚ × List Char :=
  match cs with
  | '-' :: rest => (-1, rest)
  | '+' :: rest => (1, rest)
  | _ => (1, cs)

/-- Parse a complete decimal literal; none when the characters are not a
decimal literal consumed in full.  Implements the numeric part of the
Number(string) coercion. -/
def numFromChars (cs : List Char) : Option ℚ :=
  let sgn := (splitSign cs).1
  let cs1 := (splitSign cs).2
  let intPart := (spanDigits cs1).1
  let rest1 := (spanDigits cs1).2
  let fracPart := match rest1 with
    | '.' :: r => (spanDigits r).1
    | _ => []
  let rest2 := match rest1 with
    | '.' :: r => (spanDigits r).2
    | _ => rest1
  if (intPart.isEmpty && fracPart.isEmpty) || !rest2.isEmpty then none
  else some (sgn * decValue intPart fracPart)

/-- JavaScript Number(string): trimmed empty string is 0, otherwise the
string must be a decimal literal in full; none models NaN. -/
def jsStringToNumber (s : String) : Option ℚ :=
  let t := trimChars s.data
  if t.isEmpty then some 0 else numFromChars t

/-- JavaScript parseFloat(string): parses the longest numeric prefix after
leading whitespace; none models NaN (no parsable prefix). -/
def jsParseFloat (s : String) : Option ℚ :=
  let t := (s.data.dropWhile (fun c => c.isWhitespace))
  let sgn := (splitSign t).1
  let cs1 := (splitSign t).2
  let intPart := (spanDigits cs1).1
  let rest1 := (spanDigits cs1).2
  let fracPart := match rest1 with
    | '.' :: r => (spanDigits r).1
    | _ => []
  if intPart.isEmpty && fracPart.isEmpty then none
  else some (sgn * decValue intPart fracPart)

/-- String.prototype.toLowerCase().trim() composition used by both
provider factories when normalising a source name. -/
def jsLowerTrim (s : String) : String :=
  String.mk (trimChars (lowerChars s.data))

/-! ### JavaScript values flowing into the return calculation -/

/-- The JavaScript values that reach the return-calculation functions:
null, undefined, NaN, a finite number, or a string. -/
inductive JSVal where
  | null : JSVal
  | undef : JSVal
  | nan : JSVal
  | num (q : ℚ) : JSVal
  | str (s : String) : JSVal
deriving DecidableEq

/-- The check current === null/undefined performed by calculateReturn. -/
def JSVal.isNullOrUndef : JSVal → Bool
  | .null => true
  | .undef => true
  | _ => false

/-- Global isNaN: coerces with Number() first, so isNaN(null) is false
(Number(null) = 0), isNaN(undefined) is true, and a string is NaN exactly
when it is not a numeric literal. -/
def jsIsNaN : JSVal → Bool
  | .null => false
  | .undef => true
  | .nan => true
  | .num _ => false
  | .str s => (jsStringToNumber s).isNone

/-- The conversion `if (typeof v === 'string') v = parseFloat(v)` applied
by calculateReturn: strings are parsed with parseFloat (NaN on failure),
all other values pass through unchanged. -/
def toNumberViaParseFloat (v : JSVal) : JSVal :=
  match v with
  | .str s =>
    match jsParseFloat s with
    | some q => .num q
    | none => .nan
  | _ => v

/-! ### Configuration sentinels (src/unnamed/part_008 configuration module) -/

namespace CONFIG

namespace STATUS

/-- CONFIG.STATUS.NO_DATA, the no-data sentinel string. -/
def NO_DATA : String := "데이터 없음"

/-- CONFIG.STATUS.CALC_ERROR, the calculation-error sentinel string. -/
def CALC_ERROR : String := "계산 오류"

end STATUS

end CONFIG

/-! ### src/services/PriceService.js -/

namespace PriceService

/-- calculateReturn from src/services/PriceService.js (lines 153-203):
returns the percentage change as a number, or null (modelled as none) for
null/undefined inputs, NaN inputs before or after string conversion, and
a zero previous price; prices closer than the 0.000001 tolerance yield 0.
The isFinite validation of the result never fires for exact rationals
with a nonzero divisor. -/
def calculateReturn (current previous : JSVal) : Option ℚ :=
  if current.isNullOrUndef || previous.isNullOrUndef then none
  else if jsIsNaN current || jsIsNaN previous then none
  else
    match toNumberViaParseFloat current, toNumberViaParseFloat previous with
    | .num c, .num p =>
      if p = 0 then none
      else if |c - p| < 1 / 1000000 then some 0
      else some ((c - p) / p * 100)
    | _, _ => none

/-- Two-digit zero padding used when rendering the fractional part. -/
def padTwo (n : Nat) : String :=
  if n < 10 then "0" ++ toString n else toString n

/-- Number.prototype.toFixed(2) under exact-rational semantics: round the
absolute value to the nearest hundredth, ties away from zero, and render
sign, integer part and two fractional digits. -/
def toFixed2 (v : ℚ) : String :=
  let sgn := if v < 0 then "-" else ""
  let n : Nat := (⌊|v| * 100 + 1 / 2⌋).toNat
  sgn ++ toString (n / 100) ++ "." ++ padTwo (n % 100)

/-- formatReturn from src/services/PriceService.js (lines 210-217):
null/undefined/NaN (modelled as none) renders as N/A, otherwise the value
is rendered with toFixed(2), a percent sign, and a leading plus sign for
strictly positive values. -/
def formatReturn (returnValue : Option ℚ) : String :=
  match returnValue with
  | none => "N/A"
  | some v => (if 0 < v then "+" else "") ++ toFixed2 v ++ "%"

end PriceService

/-- Modelled from the spec: the rendering the claim asserts for a pair of
finite prices - the exact value ((current/past) - 1) x 100, rounded to two
decimal places, with a leading plus sign exactly when the value is
strictly positive. -/
def claimedReturnString (current past : ℚ) : String :=
  let v := (current / past - 1) * 100
  (if 0 < v then "+" else "") ++ PriceService.toFixed2 v ++ "%"

/-! ### The sentinel-based return calculation of src/Code.js -/

namespace Code

/-- The conversion step of the Code.js calculateReturn: a string that the
Number() coercion accepts is replaced by its parseFloat value (NaN when
parseFloat fails, as for the empty string); everything else is kept. -/
def convertIfNumericString (v : JSVal) : JSVal :=
  match v with
  | .str s =>
    if (jsStringToNumber s).isNone then v
    else
      match jsParseFloat s with
      | some q => .num q
      | none => .nan
  | _ => v

/-- The numeric coercion JavaScript applies inside the final arithmetic of
the Code.js calculateReturn; only numbers and null reach that arithmetic,
and null coerces to 0. -/
def arithValue : JSVal → ℚ
  | .num q => q
  | _ => 0

/-- calculateReturn from src/Code.js (lines 676-740): propagates the
NO_DATA sentinel, converts numeric strings, returns CALC_ERROR for NaN
inputs and a zero past price, returns the literal string 0.00% for
identical inputs, and otherwise renders ((current/past) - 1) x 100 with a
leading plus for positive values.  A null past price slips past the
strict === 0 check and divides to an infinity, rendered by toFixed as the
Infinity strings. -/
def calculateReturn (current past : JSVal) : String :=
  if current = .str CONFIG.STATUS.NO_DATA || past = .str CONFIG.STATUS.NO_DATA then
    CONFIG.STATUS.NO_DATA
  else
    let current := convertIfNumericString current
    let past := convertIfNumericString past
    if jsIsNaN current then CONFIG.STATUS.CALC_ERROR
      else if jsIsNaN past then CONFIG.STATUS.CALC_ERROR
      else if past = .num 0 then CONFIG.STATUS.CALC_ERROR
      else if current = past then "0.00%"
      else
        let c := arithValue current
        let p := arithValue past
        if p = 0 then
          if c = 0 then CONFIG.STATUS.CALC_ERROR
          else if 0 < c then "+Infinity%" else "-Infinity%"
        else
          let returnValue := (c / p - 1) * 100
          (if 0 < returnValue then "+" else "") ++ PriceService.toFixed2 returnValue ++ "%"

end Code

/-! ### src/DateUtils.js - DateCalculator

Dates are millisecond timestamps.  lo is the script's fixed local
timezone offset in hours; day-of-week follows the ECMAScript WeekDay
definition (day 0 is Sunday, the epoch day is a Thursday). -/

/-- Date.prototype.getDay in a fixed-offset local timezone of lo hours. -/
def jsGetDay (lo t : Int) : Int :=
  ((t + lo * 3600000) / 86400000 + 4) % 7

namespace DateCalculator

/-- getPastDate from src/DateUtils.js (lines 100-117): subtract daysAgo
days from the reference date; if that lands after the current system
date, subtract the same offset from the current date instead. -/
def getPastDate (referenceDate currentDate daysAgo : Int) : Int :=
  let pastDate := referenceDate - daysAgo * 86400000
  if currentDate < pastDate then currentDate - daysAgo * 86400000
  else pastDate

/-- isWeekend from src/DateUtils.js (lines 147-156): Sunday (0) or
Saturday (6) in the script's local timezone. -/
def isWeekend (lo t : Int) : Bool :=
  jsGetDay lo t == 0 || jsGetDay lo t == 6

/-- The bounded backward walk of getLastTradingDate, with the remaining
attempt budget as fuel. -/
def lastTradingAux (lo : Int) : Nat → Int → Int
  | 0, t => t
  | n + 1, t =>
    if isWeekend lo t then lastTradingAux lo n (t - 86400000) else t

/-- getLastTradingDate from src/DateUtils.js (lines 124-140): step back
one day at a time while the date is a weekend, at most 7 attempts. -/
def getLastTradingDate (lo t : Int) : Int :=
  lastTradingAux lo 7 t

/-- getDateWeeksAgo from src/DateUtils.js (lines 34-40): weeks x 7 days
back via getPastDate, then snapped to the last trading date. -/
def getDateWeeksAgo (lo referenceDate currentDate weeks : Int) : Int :=
  getLastTradingDate lo (getPastDate referenceDate currentDate (weeks * 7))

end DateCalculator

/-! ### src/DateUtils.js - MarketTimeManager -/

/-- JavaScript's remainder operator, which truncates toward zero (the
sign follows the dividend). -/
def jsRem (a b : Int) : Int := Int.tmod a b

/-- A per-region market profile record from the MarketTimeManager
constructor. -/
structure Market where
  name : String
  offset : Int
  openTime : ℚ
  closeTime : ℚ
  tradingDays : List Int

/-- Result record of getMostRecentTradingDay. -/
structure TradingDayInfo where
  date : Int
  isToday : Bool
  isCurrent : Bool
  message : String

namespace MarketTimeManager

/-- Local hour of day (Date.prototype.getHours) for offset lo hours. -/
def localHours (lo t : Int) : Int :=
  ((t + lo * 3600000) / 3600000) % 24

/-- Local minute (Date.prototype.getMinutes) for offset lo hours. -/
def localMinutes (lo t : Int) : Int :=
  ((t + lo * 3600000) / 60000) % 60

/-- Local civil day number; two timestamps fall on the same local
calendar day exactly when their day numbers agree, which models the
year/month/date comparison of isSameDay. -/
def localDayNumber (lo t : Int) : Int :=
  (t + lo * 3600000) / 86400000

/-- The fractional market-hours clock used for open/close comparisons:
getHours() + getMinutes() / 60. -/
def marketHoursOf (lo t : Int) : ℚ :=
  (localHours lo t : ℚ) + (localMinutes lo t : ℚ) / 60

/-- The while loop of getDaysToLastTradingDay, with the remaining
iteration budget as fuel; the loop guard keeps daysToSubtract below 10. -/
def getDaysToLastTradingDayAux (tradingDays : List Int) :
    Nat → Int → Int → Int
  | 0, daysToSubtract, _ => daysToSubtract
  | n + 1, daysToSubtract, checkDay =>
    if ¬ tradingDays.contains checkDay ∧ daysToSubtract < 10 then
      getDaysToLastTradingDayAux tradingDays n (daysToSubtract + 1)
        (jsRem (checkDay - 1 + 7) 7)
    else daysToSubtract

/-- getDaysToLastTradingDay from src/DateUtils.js (lines 431-441): walk
backward through days of the week until one is in the trading-day mask,
keeping the count below 10.  Nine units of fuel suffice because the
count starts at 1 and the guard stops at 10. -/
def getDaysToLastTradingDay (currentDay : Int) (tradingDays : List Int) : Int :=
  getDaysToLastTradingDayAux tradingDays 9 1 (jsRem (currentDay - 1 + 7) 7)

/-- getMostRecentTradingDay from src/DateUtils.js (lines 328-409).  The
market lookup may miss (none models markets[region] being undefined);
referenceDate and now are timestamps, lo the script timezone offset in
hours.  setHours/setDate arithmetic is exact millisecond arithmetic in a
fixed-offset zone. -/
def getMostRecentTradingDay (market? : Option Market)
    (referenceDate now lo : Int) : TradingDayInfo :=
  match market? with
  | none =>
    { date := referenceDate, isToday := true, isCurrent := true
      message := "알 수 없는 시장" }
  | some market =>
    let hourDiff := market.offset - lo
    let marketDate := referenceDate + hourDiff * 3600000
    let marketNow := now + hourDiff * 3600000
    let dayOfWeek := jsGetDay lo marketDate
    let isTradingDay := market.tradingDays.contains dayOfWeek
    let marketHours := marketHoursOf lo marketNow
    let isAfterClose := market.closeTime ≤ marketHours
    let isBeforeOpen := marketHours < market.openTime
    let isTodayInit := localDayNumber lo marketDate = localDayNumber lo marketNow
    if ¬ isTradingDay then
      let daysToSubtract := getDaysToLastTradingDay dayOfWeek market.tradingDays
      { date := marketDate - daysToSubtract * 86400000
        isToday := false, isCurrent := false
        message := market.name ++ " 시장 최근 거래일 (" ++ toString daysToSubtract ++ "일 전)" }
    else if isBeforeOpen then
      let md := marketDate - 86400000
      let prevDayOfWeek := jsGetDay lo md
      let md2 :=
        if ¬ market.tradingDays.contains prevDayOfWeek then
          md - (getDaysToLastTradingDay prevDayOfWeek market.tradingDays) * 86400000
        else md
      { date := md2, isToday := false, isCurrent := false
        message := market.name ++ " 시장 이전 거래일 (장 개장 전)" }
    else if ¬ isAfterClose ∧ isTodayInit then
      let md := marketDate - 86400000
      let prevDayOfWeek := jsGetDay lo md
      let md2 :=
        if ¬ market.tradingDays.contains prevDayOfWeek then
          md - (getDaysToLastTradingDay prevDayOfWeek market.tradingDays) * 86400000
        else md
      { date := md2, isToday := false, isCurrent := false
        message := market.name ++ " 시장 이전 거래일 (장 중)" }
    else
      { date := marketDate, isToday := isTodayInit, isCurrent := true
        message := market.name ++ " 시장 오늘 종가" }

end MarketTimeManager

/-! ### Provider routing (src/DataProviders.js and
src/services/providers/ProviderFactory.js)

The repository carries two DataProviderFactory classes.  Each is
embedded under the name of its file.  A JavaScript throw is modelled as
Except.error carrying the error message. -/

/-- The three concrete data providers. -/
inductive Provider where
  | google : Provider
  | yahoo : Provider
  | naver : Provider
deriving DecidableEq

namespace DataProvidersFile

/-- DataProviderFactory.getProvider from src/DataProviders.js (lines
14-29): a missing source is replaced by the empty string, the name is
lower-cased and trimmed, and any unrecognised name falls back to the
Yahoo provider; no path throws. -/
def getProvider (source : Option String) : Except String Provider :=
  let lowerSource := jsLowerTrim (source.getD "")
  if lowerSource = "google" then .ok .google
  else if lowerSource = "yahoo" then .ok .yahoo
  else if lowerSource = "naver" then .ok .naver
  else .ok .yahoo

end DataProvidersFile

namespace ProviderFactoryFile

/-- DataProviderFactory.getProvider from
src/services/providers/ProviderFactory.js (lines 14-31): a falsy source
(missing or empty) throws, and an unrecognised name throws instead of
falling back. -/
def getProvider (source : Option String) : Except String Provider :=
  match source with
  | none => .error "데이터 소스가 지정되지 않았습니다."
  | some s =>
    if s = "" then .error "데이터 소스가 지정되지 않았습니다."
    else
      let lowerSource := jsLowerTrim s
      if lowerSource = "google" then .ok .google
      else if lowerSource = "yahoo" then .ok .yahoo
      else if lowerSource = "naver" then .ok .naver
      else .error ("지원되지 않는 데이터 소스입니다: " ++ s)

end ProviderFactoryFile

/-! ### Naver closest-date matching (src/services/providers/NaverProvider.js) -/

namespace NaverProvider

/-- The tolerance chosen by getKosdaqHistoricalPriceViaMobileAPI (lines
456-465) and getIndexHistoricalPriceViaAPI: 7 days by default, 10 days
for targets 31 to 90 days back, 15 days beyond 90 days. -/
def acceptableDiffDaysMobile (daysDiff : Int) : Int :=
  if 30 < daysDiff ∧ daysDiff ≤ 90 then 10
  else if 90 < daysDiff then 15
  else 7

/-- The tolerance chosen by the chart-API fallback inside
getEstimatedHistoricalKosdaqPrice (line 778): 15 days beyond 90 days
back, otherwise 7 days; there is no 10-day tier. -/
def acceptableDiffDaysChart (daysDiff : Int) : Int :=
  if 90 < daysDiff then 15 else 7

/-- The scan over the JSON entries (midnight timestamps paired with
close prices): an exact date match returns its price immediately
(Except.error carries that early return), otherwise the first entry at
the strictly smallest absolute distance is tracked. -/
def scanClosest (targetDate : Int) :
    List (Int × ℚ) → Option (Int × ℚ) → Except ℚ (Option (Int × ℚ))
  | [], best => .ok best
  | (d, p) :: rest, best =>
    let diff := |d - targetDate|
    if diff = 0 then .error p
    else
      match best with
      | none => scanClosest targetDate rest (some (diff, p))
      | some (minDiff, bestP) =>
        if diff < minDiff then scanClosest targetDate rest (some (diff, p))
        else scanClosest targetDate rest (some (minDiff, bestP))

/-- The date-matching stage of getKosdaqHistoricalPriceViaMobileAPI
(lines 424-478): exact match wins, otherwise the closest entry is used
only when within the mobile tolerance window; none models falling
through to the estimation fallback. -/
def kosdaqMobileAPIMatch (daysDiff targetDate : Int)
    (entries : List (Int × ℚ)) : Option ℚ :=
  match scanClosest targetDate entries none with
  | .error p => some p
  | .ok none => none
  | .ok (some (minDiff, p)) =>
    if minDiff ≤ acceptableDiffDaysMobile daysDiff * 86400000 then some p
    else none

/-- The date-matching stage of the chart-API fallback inside
getEstimatedHistoricalKosdaqPrice (lines 746-784), with its narrower
tolerance choice. -/
def kosdaqChartAPIMatch (daysDiff targetDate : Int)
    (entries : List (Int × ℚ)) : Option ℚ :=
  match scanClosest targetDate entries none with
  | .error p => some p
  | .ok none => none
  | .ok (some (minDiff, p)) =>
    if minDiff ≤ acceptableDiffDaysChart daysDiff * 86400000 then some p
    else none

end NaverProvider

/-- Modelled from the spec: the tolerance table the claim asserts for
every closest-date match on the Naver JSON paths - 7 days for targets at
most 30 days back, 10 days for 31 to 90 days, 15 days beyond. -/
def claimedToleranceDays (daysDiff : Int) : Int :=
  if daysDiff ≤ 30 then 7
  else if daysDiff ≤ 90 then 10
  else 15

/-! ### Transport-failure behaviour of the fetch operations -/

/-- Outcome of UrlFetchApp.fetch: the call itself may throw, or deliver a
response with an HTTP status code and a body. -/
inductive Fetched (α : Type) where
  | fetchError : Fetched α
  | response (code : Int) (body : α) : Fetched α

/-- The values the three extraction patterns of NaverProvider.getPrice
can pull out of the fetched page markup, in the order tried. -/
structure NaverMainPage where
  nowVal : Option ℚ
  altVal : Option ℚ
  tableVal : Option ℚ

/-- A Naver price result: a number, or the CONFIG.STATUS.NO_DATA
sentinel string. -/
inductive NaverResult where
  | price (q : ℚ) : NaverResult
  | noData : NaverResult
deriving DecidableEq

/-- getPrice from src/services/providers/NaverProvider.js (lines 19-102)
on the regular-stock path: a fetch exception is caught and mapped to
NO_DATA (lines 48-51), a non-200 response yields NO_DATA (lines 54-57),
the three extraction patterns are tried in order, and a page matching
none of them yields NO_DATA; the surrounding catch-all (lines 98-101)
keeps every outcome inside an ordinary return, so Except.error is never
produced. -/
def naverGetPrice (f : Fetched NaverMainPage) : Except String NaverResult :=
  match f with
  | .fetchError => .ok .noData
  | .response code body =>
    if code ≠ 200 then .ok .noData
    else
      match body.nowVal with
      | some p => .ok (.price p)
      | none =>
        match body.altVal with
        | some p => .ok (.price p)
        | none =>
          match body.tableVal with
          | some p => .ok (.price p)
          | none => .ok .noData

/-- The indicator arrays of a parsed Yahoo chart payload; none entries
model null/NaN series values. -/
structure YahooIndicators where
  adjclose : List (Option ℚ)
  close : List (Option ℚ)

/-- A parsed Yahoo chart response: an error object, or a (possibly
missing) result with its indicator arrays. -/
structure YahooChart where
  hasError : Bool
  result : Option YahooIndicators

/-- Body text of a Yahoo response: JSON.parse either throws (malformed)
or yields a chart structure. -/
inductive YahooPayload where
  | malformed : YahooPayload
  | parsed (chart : YahooChart) : YahooPayload

/-- The first non-null, non-NaN entry of a quote series. -/
def firstValidPrice : List (Option ℚ) → Option ℚ
  | [] => none
  | some q :: _ => some q
  | none :: rest => firstValidPrice rest

/-- getHistoricalPrice of the YahooFinanceProvider in
src/DataProviders.js (lines 806-886): the fetch and JSON.parse sit
inside a try whose catch (lines 880-885) returns 0, an API error object
returns 0, the first valid adjusted close is preferred, then the first
valid raw close, and every not-found path returns 0; the HTTP status
code is never inspected and Except.error is never produced. -/
def yahooGetHistoricalPrice (f : Fetched YahooPayload) : Except String ℚ :=
  match f with
  | .fetchError => .ok 0
  | .response _ payload =>
    match payload with
    | .malformed => .ok 0
    | .parsed chart =>
      if chart.hasError then .ok 0
      else
        match chart.result with
        | none => .ok 0
        | some indicators =>
          match firstValidPrice indicators.adjclose with
          | some q => .ok q
          | none =>
            match firstValidPrice indicators.close with
            | some q => .ok q
            | none => .ok 0

/-! ## Helper lemmas -/

theorem jsGetDay_bounds (lo t : Int) : 0 ≤ jsGetDay lo t ∧ jsGetDay lo t < 7 := by
  unfold jsGetDay; omega

theorem jsGetDay_pred_of_zero (lo t : Int) (h : jsGetDay lo t = 0) :
    jsGetDay lo (t - 86400000) = 6 := by
  unfold jsGetDay at h ⊢; omega

theorem jsGetDay_pred_of_six (lo t : Int) (h : jsGetDay lo t = 6) :
    jsGetDay lo (t - 86400000) = 5 := by
  unfold jsGetDay at h ⊢; omega

theorem lastTradingAux_le (lo : Int) :
    ∀ (n : Nat) (t : Int), DateCalculator.lastTradingAux lo n t ≤ t := by
  intro n
  induction n with
  | zero => intro t; exact le_refl t
  | succ n ih =>
    intro t
    rw [DateCalculator.lastTradingAux]
    by_cases hw : DateCalculator.isWeekend lo t
    · rw [if_pos hw]
      calc DateCalculator.lastTradingAux lo n (t - 86400000) ≤ t - 86400000 := ih _
        _ ≤ t := by omega
    · rw [if_neg hw]

/-- Three-step unfolding of the weekend walk; every later step is only
reached when the first three days are all weekend days, which cannot
happen. -/
theorem getLastTradingDate_unfold (lo t : Int) :
    DateCalculator.getLastTradingDate lo t =
      if DateCalculator.isWeekend lo t then
        (if DateCalculator.isWeekend lo (t - 86400000) then
          (if DateCalculator.isWeekend lo (t - 86400000 - 86400000) then
            DateCalculator.lastTradingAux lo 4 (t - 86400000 - 86400000 - 86400000)
          else t - 86400000 - 86400000)
        else t - 86400000)
      else t := rfl

theorem getDaysToLastTradingDayAux_le (tradingDays : List Int) :
    ∀ (n : Nat) (daysToSubtract checkDay : Int), daysToSubtract ≤ 10 →
      MarketTimeManager.getDaysToLastTradingDayAux tradingDays n daysToSubtract checkDay ≤ 10 := by
  intro n
  induction n with
  | zero => intro d c h; exact h
  | succ n ih =>
    intro d c h
    rw [MarketTimeManager.getDaysToLastTradingDayAux]
    by_cases hc : ¬ tradingDays.contains c ∧ d < 10
    · rw [if_pos hc]; exact ih _ _ (by omega)
    · rw [if_neg hc]; exact h

theorem getDaysToLastTradingDayAux_succ (tradingDays : List Int) (n : Nat)
    (daysToSubtract checkDay : Int) :
    MarketTimeManager.getDaysToLastTradingDayAux tradingDays (n + 1) daysToSubtract checkDay =
      if ¬ tradingDays.contains checkDay ∧ daysToSubtract < 10 then
        MarketTimeManager.getDaysToLastTradingDayAux tradingDays n (daysToSubtract + 1)
          (jsRem (checkDay - 1 + 7) 7)
      else daysToSubtract := rfl

theorem getDaysToLastTradingDayAux_stable (tradingDays : List Int) :
    ∀ (k : Nat) (daysToSubtract checkDay : Int), 10 ≤ daysToSubtract + k →
      MarketTimeManager.getDaysToLastTradingDayAux tradingDays (k + 1) daysToSubtract checkDay =
        MarketTimeManager.getDaysToLastTradingDayAux tradingDays k daysToSubtract checkDay := by
  intro k
  induction k with
  | zero =>
    intro d c h
    rw [getDaysToLastTradingDayAux_succ]
    rw [if_neg (fun hcon => absurd hcon.2 (by omega))]
    rfl
  | succ k ih =>
    intro d c h
    conv_rhs => rw [getDaysToLastTradingDayAux_succ tradingDays k]
    rw [getDaysToLastTradingDayAux_succ tradingDays (k + 1)]
    by_cases hc : ¬ tradingDays.contains c ∧ d < 10
    · rw [if_pos hc, if_pos hc]
      exact ih _ _ (by omega)
    · rw [if_neg hc, if_neg hc]

/-! ## C9 - the backward walk of getDaysToLastTradingDay is bounded -/

/-- C9: for every starting day-of-week and every trading-day mask,
including masks with no trading day at all, the backward walk of
getDaysToLastTradingDay terminates (its result is already stable at the
fuel the loop guard ever allows) and returns at most 10. -/
theorem getDaysToLastTradingDay_bounded (currentDay : Int) (tradingDays : List Int) :
    MarketTimeManager.getDaysToLastTradingDay currentDay tradingDays ≤ 10 ∧
    (∀ extra : Nat,
      MarketTimeManager.getDaysToLastTradingDayAux tradingDays (9 + extra) 1
          (jsRem (currentDay - 1 + 7) 7) =
        MarketTimeManager.getDaysToLastTradingDay currentDay tradingDays) := by
  constructor
  · exact getDaysToLastTradingDayAux_le tradingDays 9 1 _ (by omega)
  · intro extra
    induction extra with
    | zero => rfl
    | succ k ih =>
      have h9 : 9 + (k + 1) = (9 + k) + 1 := by omega
      rw [h9, getDaysToLastTradingDayAux_stable tradingDays (9 + k) 1 _ (by push_cast; omega), ih]

/-! ## C10 - getLastTradingDate never lands on a weekend and moves back
at most two days -/

/-- C10: for every input date, getLastTradingDate returns a date that is
neither a Sunday (0) nor a Saturday (6), is never later than the input,
and is at most two calendar days earlier. -/
theorem getLastTradingDate_weekend_snap (lo t : Int) :
    jsGetDay lo (DateCalculator.getLastTradingDate lo t) ≠ 0 ∧
    jsGetDay lo (DateCalculator.getLastTradingDate lo t) ≠ 6 ∧
    DateCalculator.getLastTradingDate lo t ≤ t ∧
    t - 2 * 86400000 ≤ DateCalculator.getLastTradingDate lo t := by
  have hb := jsGetDay_bounds lo t
  by_cases h0 : jsGetDay lo t = 0
  · have h6 : jsGetDay lo (t - 86400000) = 6 := jsGetDay_pred_of_zero lo t h0
    have h5 : jsGetDay lo (t - 86400000 - 86400000) = 5 :=
      jsGetDay_pred_of_six lo (t - 86400000) h6
    have hres : DateCalculator.getLastTradingDate lo t = t - 86400000 - 86400000 := by
      rw [getLastTradingDate_unfold]
      rw [if_pos (by simp [DateCalculator.isWeekend, h0])]
      rw [if_pos (by simp [DateCalculator.isWeekend, h6])]
      rw [if_neg (by simp [DateCalculator.isWeekend, h5])]
    rw [hres]
    refine ⟨by rw [h5]; omega, by rw [h5]; omega, by omega, by omega⟩
  · by_cases h6 : jsGetDay lo t = 6
    · have h5 : jsGetDay lo (t - 86400000) = 5 := jsGetDay_pred_of_six lo t h6
      have hres : DateCalculator.getLastTradingDate lo t = t - 86400000 := by
        rw [getLastTradingDate_unfold]
        rw [if_pos (by simp [DateCalculator.isWeekend, h6])]
        rw [if_neg (by simp [DateCalculator.isWeekend, h5])]
      rw [hres]
      refine ⟨by rw [h5]; omega, by rw [h5]; omega, by omega, by omega⟩
    · have hres : DateCalculator.getLastTradingDate lo t = t := by
        rw [getLastTradingDate_unfold]
        rw [if_neg (by simp [DateCalculator.isWeekend, h0, h6])]
      rw [hres]
      exact ⟨h0, h6, by omega, by omega⟩

/-! ## C6 - future-reference-date guard of the week-ago computation -/

/-- C6: for a reference date in the future of the system clock, the
week-ago lookup date never lies after the system clock date, and
whenever the naive offset would land after the clock the offset is
recomputed from the clock instead. -/
theorem getDateWeeksAgo_future_guard (lo referenceDate currentDate : Int)
    (h : currentDate < referenceDate) :
    DateCalculator.getDateWeeksAgo lo referenceDate currentDate 1 ≤ currentDate ∧
    (currentDate < referenceDate - 7 * 86400000 →
      DateCalculator.getPastDate referenceDate currentDate 7 =
        currentDate - 7 * 86400000) := by
  constructor
  · have hpd : DateCalculator.getPastDate referenceDate currentDate (1 * 7) ≤ currentDate := by
      simp only [DateCalculator.getPastDate]
      split <;> omega
    calc DateCalculator.getDateWeeksAgo lo referenceDate currentDate 1
        ≤ DateCalculator.getPastDate referenceDate currentDate (1 * 7) :=
          lastTradingAux_le lo 7 _
      _ ≤ currentDate := hpd
  · intro hfar
    simp only [DateCalculator.getPastDate]
    rw [if_pos (by omega)]

/-- Witness for C6 at a reference date one year (365 days) ahead of the
system clock. -/
theorem getDateWeeksAgo_future_guard_witness :
    DateCalculator.getDateWeeksAgo 0 31536000000 0 1 ≤ 0 ∧
    ((0 : Int) < 31536000000 - 7 * 86400000 →
      DateCalculator.getPastDate 31536000000 0 7 = 0 - 7 * 86400000) :=
  getDateWeeksAgo_future_guard 0 31536000000 0 (by omega)

/-! ## C7 - getMostRecentTradingDay on a Saturday -/

/-- C7: for a market whose trading-day mask is Monday through Friday,
getMostRecentTradingDay at an instant that is a Saturday in market-local
time returns exactly the previous calendar day, which is the
immediately preceding Friday (day 5). -/
theorem mostRecentTradingDay_saturday_friday
    (name : String) (offset : Int) (openTime closeTime : ℚ)
    (referenceDate now lo : Int)
    (h : jsGetDay lo (referenceDate + (offset - lo) * 3600000) = 6) :
    (MarketTimeManager.getMostRecentTradingDay
        (some ⟨name, offset, openTime, closeTime, [1, 2, 3, 4, 5]⟩)
        referenceDate now lo).date
      = referenceDate + (offset - lo) * 3600000 - 86400000 ∧
    jsGetDay lo ((MarketTimeManager.getMostRecentTradingDay
        (some ⟨name, offset, openTime, closeTime, [1, 2, 3, 4, 5]⟩)
        referenceDate now lo).date) = 5 := by
  have hdays : MarketTimeManager.getDaysToLastTradingDay 6 [1, 2, 3, 4, 5] = 1 := by
    decide
  have hdate : (MarketTimeManager.getMostRecentTradingDay
      (some ⟨name, offset, openTime, closeTime, [1, 2, 3, 4, 5]⟩)
      referenceDate now lo).date
      = referenceDate + (offset - lo) * 3600000 - 86400000 := by
    simp [MarketTimeManager.getMostRecentTradingDay, h, hdays]
  refine ⟨hdate, ?_⟩
  rw [hdate]
  exact jsGetDay_pred_of_six lo _ h

/-- Witness for C7: a Saturday instant in the Korean market (offset 9),
with the script clock in UTC. -/
theorem mostRecentTradingDay_saturday_friday_witness :
    (MarketTimeManager.getMostRecentTradingDay
        (some ⟨"한국", 9, 9, 31 / 2, [1, 2, 3, 4, 5]⟩) 140400000 0 0).date
      = 140400000 + (9 - 0) * 3600000 - 86400000 ∧
    jsGetDay 0 ((MarketTimeManager.getMostRecentTradingDay
        (some ⟨"한국", 9, 9, 31 / 2, [1, 2, 3, 4, 5]⟩) 140400000 0 0).date) = 5 :=
  mostRecentTradingDay_saturday_friday "한국" 9 9 (31 / 2) 140400000 0 0 (by decide)

/-! ## C4 - closest-date tolerance windows on the Naver JSON paths -/

theorem acceptIff (tol minDiff : Int) (p : ℚ) :
    ((if minDiff ≤ tol then some p else none) = some p) ↔ minDiff ≤ tol := by
  split <;> simp_all

/-- C4 (amended): with no exact date hit, the mobile-API matching stage
accepts the nearest candidate exactly within 7 days for targets at most
30 days back, 10 days for 31 to 90 days back and 15 days beyond, while
the chart-API fallback accepts within 7 days for every target at most 90
days back and 15 days beyond, with no 10-day tier. -/
theorem kosdaqClosestDateToleranceWindows (daysDiff targetDate minDiff : Int)
    (p : ℚ) (entries : List (Int × ℚ))
    (h : NaverProvider.scanClosest targetDate entries none = .ok (some (minDiff, p))) :
    (daysDiff ≤ 30 →
      (NaverProvider.kosdaqMobileAPIMatch daysDiff targetDate entries = some p ↔
        minDiff ≤ 7 * 86400000)) ∧
    (30 < daysDiff ∧ daysDiff ≤ 90 →
      (NaverProvider.kosdaqMobileAPIMatch daysDiff targetDate entries = some p ↔
        minDiff ≤ 10 * 86400000)) ∧
    (90 < daysDiff →
      (NaverProvider.kosdaqMobileAPIMatch daysDiff targetDate entries = some p ↔
        minDiff ≤ 15 * 86400000)) ∧
    (daysDiff ≤ 90 →
      (NaverProvider.kosdaqChartAPIMatch daysDiff targetDate entries = some p ↔
        minDiff ≤ 7 * 86400000)) ∧
    (90 < daysDiff →
      (NaverProvider.kosdaqChartAPIMatch daysDiff targetDate entries = some p ↔
        minDiff ≤ 15 * 86400000)) := by
  refine ⟨fun hd => ?_, fun hd => ?_, fun hd => ?_, fun hd => ?_, fun hd => ?_⟩
  · have ht : NaverProvider.acceptableDiffDaysMobile daysDiff = 7 := by
      unfold NaverProvider.acceptableDiffDaysMobile; split_ifs <;> omega
    simp only [NaverProvider.kosdaqMobileAPIMatch, h, ht]
    exact acceptIff _ _ _
  · have ht : NaverProvider.acceptableDiffDaysMobile daysDiff = 10 := by
      unfold NaverProvider.acceptableDiffDaysMobile; rw [if_pos hd]
    simp only [NaverProvider.kosdaqMobileAPIMatch, h, ht]
    exact acceptIff _ _ _
  · have ht : NaverProvider.acceptableDiffDaysMobile daysDiff = 15 := by
      unfold NaverProvider.acceptableDiffDaysMobile; split_ifs <;> omega
    simp only [NaverProvider.kosdaqMobileAPIMatch, h, ht]
    exact acceptIff _ _ _
  · have ht : NaverProvider.acceptableDiffDaysChart daysDiff = 7 := by
      unfold NaverProvider.acceptableDiffDaysChart; split_ifs <;> omega
    simp only [NaverProvider.kosdaqChartAPIMatch, h, ht]
    exact acceptIff _ _ _
  · have ht : NaverProvider.acceptableDiffDaysChart daysDiff = 15 := by
      unfold NaverProvider.acceptableDiffDaysChart; rw [if_pos hd]
    simp only [NaverProvider.kosdaqChartAPIMatch, h, ht]
    exact acceptIff _ _ _

/-- Witness for C4: a single candidate 3 days from the target, queried
45 days back; the mobile window is 10 days, so it is accepted. -/
theorem kosdaqClosestDateToleranceWindows_witness :
    ((30 : Int) < 45 ∧ (45 : Int) ≤ 90) ∧
    (NaverProvider.kosdaqMobileAPIMatch 45 0 [(259200000, 500)] = some 500 ↔
      (259200000 : Int) ≤ 10 * 86400000) :=
  ⟨⟨by omega, by omega⟩,
    (kosdaqClosestDateToleranceWindows 45 0 259200000 500 [(259200000, 500)]
      rfl).2.1 ⟨by omega, by omega⟩⟩

/-- Counterexample to C4 as stated: on the chart-API fallback path a
candidate 8 days from a target 45 days in the past is rejected, although
the claimed 10-day tolerance tier for 31-to-90-day-old targets would
accept it. -/
theorem kosdaqChartToleranceCounterexample :
    NaverProvider.kosdaqChartAPIMatch 45 0 [(691200000, 500)] = none ∧
    (691200000 : Int) ≤ claimedToleranceDays 45 * 86400000 := by
  constructor
  · decide
  · decide

/-! ## C5 - transport failures are swallowed, not raised -/

/-- C5 (amended): the fetch operations never propagate an exception.
Naver getPrice maps a fetch exception and every non-200 response to the
NO_DATA sentinel; Yahoo getHistoricalPrice maps a fetch exception and a
malformed payload to the numeric result 0. -/
theorem providersSwallowTransportFailures :
    (∀ (f : Fetched NaverMainPage) (e : String), naverGetPrice f ≠ .error e) ∧
    (∀ (f : Fetched YahooPayload) (e : String), yahooGetHistoricalPrice f ≠ .error e) ∧
    (∀ (code : Int) (body : NaverMainPage), code ≠ 200 →
      naverGetPrice (.response code body) = .ok .noData) ∧
    naverGetPrice .fetchError = .ok .noData ∧
    yahooGetHistoricalPrice .fetchError = .ok 0 ∧
    (∀ code : Int, yahooGetHistoricalPrice (.response code .malformed) = .ok 0) := by
  refine ⟨?_, ?_, ?_, rfl, rfl, fun _ => rfl⟩
  · intro f e
    cases f with
    | fetchError => simp [naverGetPrice]
    | response code body =>
      obtain ⟨nv, av, tv⟩ := body
      by_cases hc : code ≠ 200 <;>
        cases nv <;> cases av <;> cases tv <;> simp [naverGetPrice, hc]
  · intro f e
    cases f with
    | fetchError => simp [yahooGetHistoricalPrice]
    | response code payload =>
      cases payload with
      | malformed => simp [yahooGetHistoricalPrice]
      | parsed chart =>
        obtain ⟨hasError, result⟩ := chart
        cases hasError
        · cases result with
          | none => simp [yahooGetHistoricalPrice]
          | some indicators =>
            cases hadj : firstValidPrice indicators.adjclose with
            | some q => simp [yahooGetHistoricalPrice, hadj]
            | none =>
              cases hcl : firstValidPrice indicators.close <;>
                simp [yahooGetHistoricalPrice, hadj, hcl]
        · simp [yahooGetHistoricalPrice]
  · intro code body h
    simp [naverGetPrice, h]

/-- Witness for C5 at a concrete non-200 response. -/
theorem providersSwallowTransportFailures_witness :
    naverGetPrice (.response 404 ⟨none, none, none⟩) = .ok .noData :=
  providersSwallowTransportFailures.2.2.1 404 ⟨none, none, none⟩ (by omega)

/-- Counterexample to C5 as stated: a fetch exception is not raised -
Yahoo getHistoricalPrice swallows it into the numeric result 0 and Naver
getPrice swallows it into the NO_DATA sentinel. -/
theorem transportFailureNotRaisedCounterexample :
    yahooGetHistoricalPrice .fetchError = .ok 0 ∧
    naverGetPrice .fetchError = .ok .noData :=
  ⟨rfl, rfl⟩

/-! ## C8 - provider routing -/

/-- C8 (amended): the DataProviders.js factory is total and substitutes
the Yahoo provider for every unrecognised (normalised) source name,
while the duplicate factory in services/providers throws on a
non-empty unrecognised name. -/
theorem providerRoutingVariants (source : String)
    (hg : jsLowerTrim source ≠ "google")
    (hy : jsLowerTrim source ≠ "yahoo")
    (hn : jsLowerTrim source ≠ "naver") :
    DataProvidersFile.getProvider (some source) = .ok .yahoo ∧
    (∀ s : Option String, ∃ p, DataProvidersFile.getProvider s = .ok p) ∧
    (source ≠ "" →
      ProviderFactoryFile.getProvider (some source) =
        .error ("지원되지 않는 데이터 소스입니다: " ++ source)) := by
  refine ⟨?_, ?_, ?_⟩
  · simp [DataProvidersFile.getProvider, hg, hy, hn]
  · intro s
    simp only [DataProvidersFile.getProvider]
    split_ifs <;> exact ⟨_, rfl⟩
  · intro hs
    simp [ProviderFactoryFile.getProvider, hs, hg, hy, hn]

/-- Witness for C8 at the unrecognised source name bloomberg. -/
theorem providerRoutingVariants_witness :
    DataProvidersFile.getProvider (some "bloomberg") = .ok .yahoo ∧
    ("bloomberg" ≠ "" →
      ProviderFactoryFile.getProvider (some "bloomberg") =
        .error ("지원되지 않는 데이터 소스입니다: " ++ "bloomberg")) :=
  ⟨(providerRoutingVariants "bloomberg" (by decide) (by decide) (by decide)).1,
    (providerRoutingVariants "bloomberg" (by decide) (by decide) (by decide)).2.2⟩

/-- Counterexample to C8 as stated: routing through the
services/providers factory throws on an unrecognised name instead of
substituting the Yahoo provider. -/
theorem providerFactoryThrowsCounterexample :
    ProviderFactoryFile.getProvider (some "bloomberg") =
      .error "지원되지 않는 데이터 소스입니다: bloomberg" := by
  rfl

/-! ## C1 - the formatted return of the PriceService pipeline -/

theorem toFixed2_eval (v : ℚ) (n : ℕ) (hneg : ¬ v < 0)
    (hfl : ⌊|v| * 100 + 1 / 2⌋ = (n : ℤ)) :
    PriceService.toFixed2 v =
      toString (n / 100) ++ "." ++ PriceService.padTwo (n % 100) := by
  simp only [PriceService.toFixed2, hfl, if_neg hneg, Int.toNat_natCast]
  rfl

/-- Definitional reduction of calculateReturn on two plain numbers: the
null, undefined and NaN branches cannot fire. -/
theorem calculateReturn_num_reduce (c p : ℚ) :
    PriceService.calculateReturn (.num c) (.num p) =
      (if p = 0 then none
       else if |c - p| < 1 / 1000000 then some 0
       else some ((c - p) / p * 100)) := rfl

theorem calculateReturn_num_eval (c p : ℚ) (hp : p ≠ 0)
    (htol : 1 / 1000000 ≤ |c - p|) :
    PriceService.calculateReturn (.num c) (.num p) = some ((c - p) / p * 100) := by
  rw [calculateReturn_num_reduce, if_neg hp, if_neg (not_lt.mpr htol)]

/-- C1 (amended): for finite numeric inputs with a nonzero past price
and prices at least 0.000001 apart, calculateReturn followed by
formatReturn renders exactly ((current/past) - 1) x 100 rounded to two
decimals with a leading plus sign exactly for strictly positive values;
inside that tolerance the pipeline returns 0.00% instead. -/
theorem calculateReturn_formatReturn_exact (c p : ℚ) (hp : p ≠ 0)
    (htol : 1 / 1000000 ≤ |c - p|) :
    PriceService.formatReturn (PriceService.calculateReturn (.num c) (.num p)) =
      claimedReturnString c p := by
  rw [calculateReturn_num_eval c p hp htol]
  have hv : (c - p) / p * 100 = (c / p - 1) * 100 := by
    field_simp
  simp only [PriceService.formatReturn, claimedReturnString, hv]

/-- Witness for C1 at current 110, past 100. -/
theorem calculateReturn_formatReturn_exact_witness :
    PriceService.formatReturn (PriceService.calculateReturn (.num 110) (.num 100)) =
      claimedReturnString 110 100 :=
  calculateReturn_formatReturn_exact 110 100 (by norm_num) (by norm_num)

/-- Counterexample to C1 as stated: the prices 3/2000000 and 1/1000000
differ (the true return is +50 percent) but fall inside the 0.000001
tolerance, so the pipeline renders 0.00 percent without the plus sign. -/
theorem calculateReturnToleranceCounterexample :
    PriceService.formatReturn
        (PriceService.calculateReturn (.num (3 / 2000000)) (.num (1 / 1000000))) =
      "0.00%" ∧
    claimedReturnString (3 / 2000000) (1 / 1000000) = "+50.00%" ∧
    (3 / 2000000 : ℚ) ≠ 1 / 1000000 ∧ (1 / 1000000 : ℚ) ≠ 0 := by
  have hz : PriceService.toFixed2 0 = "0.00" := by
    rw [toFixed2_eval 0 0 (by norm_num) (by norm_num [Int.floor_eq_iff])]
    rfl
  have hcalc : PriceService.calculateReturn (.num (3 / 2000000)) (.num (1 / 1000000)) =
      some 0 := by
    have htol : |(3 / 2000000 : ℚ) - 1 / 1000000| < 1 / 1000000 := by
      rw [show (3 / 2000000 : ℚ) - 1 / 1000000 = 1 / 2000000 by norm_num]
      rw [abs_of_pos (by norm_num)]
      norm_num
    rw [calculateReturn_num_reduce, if_neg (by norm_num), if_pos htol]
  refine ⟨?_, ?_, by norm_num, by norm_num⟩
  · rw [hcalc]
    simp [PriceService.formatReturn, hz]
  · have hval : ((3 / 2000000 : ℚ) / (1 / 1000000) - 1) * 100 = 50 := by
      norm_num
    have hfifty : PriceService.toFixed2 50 = "50.00" := by
      rw [toFixed2_eval 50 5000 (by norm_num) (by norm_num [Int.floor_eq_iff])]
      rfl
    simp only [claimedReturnString, hval]
    rw [if_pos (by norm_num), hfifty]
    rfl

/-! ## C2 - a zero past price in the PriceService pipeline -/

/-- C2 (amended): calculateReturn with a zero past price returns null
(rendered N/A by formatReturn); the CONFIG.STATUS.CALC_ERROR sentinel is
produced only by the Code.js variant of calculateReturn. -/
theorem calculateReturn_zero_previous (q : ℚ) :
    PriceService.calculateReturn (.num q) (.num 0) = none ∧
    PriceService.formatReturn (PriceService.calculateReturn (.num q) (.num 0)) = "N/A" ∧
    Code.calculateReturn (.num q) (.num 0) = CONFIG.STATUS.CALC_ERROR := by
  have h1 : PriceService.calculateReturn (.num q) (.num 0) = none := by
    simp [PriceService.calculateReturn, JSVal.isNullOrUndef, jsIsNaN,
      toNumberViaParseFloat]
  refine ⟨h1, by rw [h1]; rfl, ?_⟩
  simp [Code.calculateReturn, Code.convertIfNumericString, jsIsNaN]

/-- Counterexample to C2 as stated: the cited pipeline renders a zero
past price as N/A, which is not the CALC_ERROR sentinel string. -/
theorem calculateReturnZeroNotCalcError :
    PriceService.formatReturn (PriceService.calculateReturn (.num 5) (.num 0)) = "N/A" ∧
    "N/A" ≠ CONFIG.STATUS.CALC_ERROR := by
  refine ⟨?_, by decide⟩
  have h1 : PriceService.calculateReturn (.num 5) (.num 0) = none := by
    simp [PriceService.calculateReturn, JSVal.isNullOrUndef, jsIsNaN,
      toNumberViaParseFloat]
  rw [h1]
  rfl

/-! ## C3 - the NO_DATA sentinel through the return calculation -/

theorem noData_isNaN : jsIsNaN (.str CONFIG.STATUS.NO_DATA) = true := by
  decide

/-- C3 (amended): in the cited PriceService variant, a NO_DATA argument
collapses to null (rendered N/A), the same as every other error, rather
than propagating the NO_DATA sentinel; the Code.js variant of
calculateReturn does return the sentinel for every other argument. -/
theorem calculateReturn_noData_collapses (y : JSVal) :
    PriceService.calculateReturn (.str CONFIG.STATUS.NO_DATA) y = none ∧
    PriceService.calculateReturn y (.str CONFIG.STATUS.NO_DATA) = none ∧
    Code.calculateReturn (.str CONFIG.STATUS.NO_DATA) y = CONFIG.STATUS.NO_DATA ∧
    Code.calculateReturn y (.str CONFIG.STATUS.NO_DATA) = CONFIG.STATUS.NO_DATA := by
  refine ⟨?_, ?_, ?_, ?_⟩
  · cases y <;> simp [PriceService.calculateReturn, JSVal.isNullOrUndef, noData_isNaN]
  · cases y <;> simp [PriceService.calculateReturn, JSVal.isNullOrUndef, noData_isNaN]
  · simp [Code.calculateReturn]
  · simp [Code.calculateReturn]

/-- Counterexample to C3 as stated: with a NO_DATA first argument and a
numeric second argument the cited calculateReturn returns null, rendered
N/A - not the NO_DATA sentinel. -/
theorem calculateReturnNoDataNotPropagated :
    PriceService.calculateReturn (.str CONFIG.STATUS.NO_DATA) (.num 100) = none ∧
    PriceService.formatReturn
        (PriceService.calculateReturn (.str CONFIG.STATUS.NO_DATA) (.num 100)) = "N/A" ∧
    "N/A" ≠ CONFIG.STATUS.NO_DATA := by
  have h1 : PriceService.calculateReturn (.str CONFIG.STATUS.NO_DATA) (.num 100) = none := by
    simp [PriceService.calculateReturn, JSVal.isNullOrUndef, noData_isNaN]
  exact ⟨h1, by rw [h1]; rfl, by decide⟩

end PerfDash
